import Mathlib

/-!
Shallow embedding of `src/surveillance/sentry.go` (package `surveillance` of the
vcore repository): the `Sentry` wrapper struct, its `Capture` and
`CaptureWithContext` entry points, the `HandleFunc`/`HandleHttpRouter`
decorators, and the `UnaryServerInterceptor`/`StreamServerInterceptor`
factories.

External collaborators (the sentry-go SDK, the vcore `errors`/`log`/`env`
packages, grpc) are modelled by their observable interface at the call sites in
this file: an error value carries its message, its ignorable flag and the
extras/tags the classification collaborator extracts from it; the backend's
`CaptureException` is an oracle parameter returning an optional event id (nil
when the event is sampled out); local logging and upstream transmission are
recorded as effect lists in the result of each modelled function.
-/

namespace Vcore.Surveillance

/-- `sentry.EventID`: opaque identifier string, `""` when empty. -/
abbrev EventID := String

/-- An application error as seen through the `vcore/errors` classification
collaborator: its `%s`-stringified message, whether `errors.Ignore` holds, and
the `errors.Extras` / `errors.Tags` mappings extracted from it. -/
structure GoError where
  msg : String
  ignorable : Bool
  extras : Option (List (String × String))
  tags : List (String × String)
  deriving DecidableEq

/-- A Go panic value as observed by `recover()`: either an error value (the
shim only ever panics with the captured error) or some other value kept with
its stringified form. -/
inductive GoPanic where
  | errv (e : GoError)
  | strv (s : String)
  deriving DecidableEq

/-- `fmt.Sprintf("%s", r)` applied to a recovered panic value. -/
def stringifyGoPanic : GoPanic → String
  | .errv e => e.msg
  | .strv s => s

/-- Control outcome of a modelled Go function call: a normal return, a panic
unwinding out of the call, or a nil-pointer dereference fault. -/
inductive Outcome (α : Type) where
  | ret (a : α)
  | raised (v : GoPanic)
  | nilDeref
  deriving DecidableEq

/-- Whether the call let a panic escape to its caller. -/
def Outcome.propagates {α : Type} : Outcome α → Bool
  | .raised _ => true
  | _ => false

/-- One entry written through the `vcore/log` collaborator. -/
inductive LogEntry where
  | errorfWithID (e : GoError) (id : EventID)
  | logError (e : GoError)
  deriving DecidableEq

/-- The `Sentry` wrapper struct. The source only ever observes whether the
`client` and `handler` fields are nil, so each is modelled by its presence.
`InitSentry` with an empty or rejected DSN produces `{client := false,
handler := false}` (the Go `&Sentry{nil, nil}`). -/
structure Sentry where
  client : Bool
  handler : Bool
  deriving DecidableEq

/-- Observable result of a `Capture`/`CaptureWithContext` call: its control
outcome (the returned identifier, a panic, or a fault), the local log entries
written, and the errors handed to the backend's `CaptureException`. -/
structure CaptureResult where
  outcome : Outcome EventID
  logs : List LogEntry
  sent : List GoError
  deriving DecidableEq

/-- `(wrapper *Sentry) Capture(err error, _panic bool) sentry.EventID`
(src/surveillance/sentry.go lines 71–116).

`capResult` is the oracle for `sentry.CaptureException(err)` (nil when the
event is sampled out). The local `eventID` pointer starts as
`new(sentry.EventID)` (a non-nil pointer to the empty id); the final
`if eventID != nil { return *eventID }; return ""` is `Option.getD`. When the
client is present and the error is not ignorable, `sentry.WithScope` attaches
the error's extras and tags to the scope and captures the error; a non-nil
event id is logged. Otherwise only `log.Error(err)` runs. `_panic` re-raises
the error before the function can return. -/
def Capture (wrapper : Sentry) (capResult : Option EventID)
    (err : Option GoError) (_panic : Bool) : CaptureResult :=
  let eventID : Option EventID := some ""
  match err with
  | none => { outcome := .ret (eventID.getD ""), logs := [], sent := [] }
  | some e =>
      if wrapper.client && !e.ignorable then
        let eventID : Option EventID := capResult
        let logs := match eventID with
          | some id => [LogEntry.errorfWithID e id]
          | none => []
        if _panic then { outcome := .raised (.errv e), logs := logs, sent := [e] }
        else { outcome := .ret (eventID.getD ""), logs := logs, sent := [e] }
      else
        let logs := [LogEntry.logError e]
        if _panic then { outcome := .raised (.errv e), logs := logs, sent := [] }
        else { outcome := .ret (eventID.getD ""), logs := logs, sent := [] }

/-- An ambient `context.Context`: an opaque payload plus optionally an attached
reporting session (a sentry hub pointer), the part `sentry.GetHubFromContext`
reads; the hub type `H` is kept abstract. -/
structure Context (H : Type) where
  data : Nat
  hub : Option H
  deriving DecidableEq

/-- `sentry.SetHubOnContext(ctx, hub)`: decorates the context with the hub,
leaving the rest of the context unchanged. -/
def setHubOnContext {H : Type} (ctx : Context H) (h : H) : Context H :=
  { ctx with hub := some h }

/-- Dereference of the `eventID` pointer: `*eventID` faults when the pointer
is nil. -/
def derefEventID : Option EventID → Outcome EventID
  | some id => .ret id
  | none => .nilDeref

/-- `(wrapper *Sentry) CaptureWithContext(c context.Context, err error, _panic
bool) sentry.EventID` (src/surveillance/sentry.go lines 119–161).

Differences from `Capture`, mirrored from the source: when the client is
present and the error is not ignorable, the hub is looked up on the context;
if present, the scope is populated and `hub.CaptureException(err)` reassigns
the `eventID` pointer (the oracle `capResult`, nil when sampled out), and nil
event ids are deliberately not logged; if absent, the call falls back to
`wrapper.Capture(err, _panic)` whose returned identifier is discarded (a panic
raised inside it propagates). The function ends with an unguarded
`return *eventID`, modelled by `derefEventID`. -/
def CaptureWithContext {H : Type} (wrapper : Sentry) (capResult : Option EventID)
    (c : Context H) (err : Option GoError) (_panic : Bool) : CaptureResult :=
  let eventID : Option EventID := some ""
  match err with
  | none => { outcome := derefEventID eventID, logs := [], sent := [] }
  | some e =>
      if wrapper.client && !e.ignorable then
        match c.hub with
        | some _hub =>
            let eventID : Option EventID := capResult
            let logs := match eventID with
              | some id => [LogEntry.errorfWithID e id]
              | none => []
            if _panic then { outcome := .raised (.errv e), logs := logs, sent := [e] }
            else { outcome := derefEventID eventID, logs := logs, sent := [e] }
        | none =>
            let inner := Capture wrapper capResult (some e) _panic
            match inner.outcome with
            | .raised v => { outcome := .raised v, logs := inner.logs, sent := inner.sent }
            | _ =>
                if _panic then { outcome := .raised (.errv e), logs := inner.logs, sent := inner.sent }
                else { outcome := derefEventID eventID, logs := inner.logs, sent := inner.sent }
      else
        let logs := [LogEntry.logError e]
        if _panic then { outcome := .raised (.errv e), logs := logs, sent := [] }
        else { outcome := derefEventID eventID, logs := logs, sent := [] }

/-- `(wrapper *Sentry) HandleFunc(handler http.HandlerFunc) http.HandlerFunc`
(src lines 165–173). `sentryWrap` models the external adapter's `HandleFunc`,
consulted only when the wrapper's handler field is present. -/
def HandleFunc {H : Type} (wrapper : Sentry) (sentryWrap : H → H) (handler : H) : H :=
  if wrapper.handler then sentryWrap handler else handler

/-- `(wrapper *Sentry) HandleHttpRouter(handler httprouter.Handle)
httprouter.Handle` (src lines 177–185). Same shape as `HandleFunc` over the
router's handle type. -/
def HandleHttpRouter {H : Type} (wrapper : Sentry) (sentryWrap : H → H) (handler : H) : H :=
  if wrapper.handler then sentryWrap handler else handler

/-- A grpc `error` value as it flows through the interceptors: either an
application error returned by the handler or a status error built by
`status.Errorf(code, "%s", r)`. -/
inductive GrpcError where
  | app (e : GoError)
  | statusErr (code : Nat) (msg : String)
  deriving DecidableEq

/-- `google.golang.org/grpc/codes.Internal` (wire value 13). -/
def codesInternal : Nat := 13

/-- Interceptor options from the vcore sentry wrapper package. `Repanic`
controls whether a recovered panic is re-raised; `ReportOn` is the
should-report predicate consulted on the handler's returned error. -/
structure SentryOptions where
  Repanic : Bool
  ReportOn : Option GrpcError → Bool

/-- Modelled from the spec: `sentryWrapper.BuildOptions` and
`sentryWrapper.WithRepanic` live in the vcore `sentry` package, which is part
of this repository but not under `src/`. Per the spec the wrapped call either
re-panics "(if configured to do so)" or converts the panic, and the post-call
policy reports errors satisfying "a predicate over error severity/class from
the wrapped SDK": `WithRepanic(b)` configures the `Repanic` field to `b`, and
the predicate is threaded through as `reportOn`. -/
def BuildOptions (reportOn : Option GrpcError → Bool) (withRepanic : Bool) : SentryOptions :=
  { Repanic := withRepanic, ReportOn := reportOn }

/-- What a unary grpc handler does when invoked: return a (possibly nil)
response with a (possibly nil) error, or panic. -/
inductive UnaryHandlerOutcome (ρ : Type) where
  | ok (resp : Option ρ) (err : Option GrpcError)
  | raised (v : GoPanic)

/-- One report made through the per-call hub: `hub.RecoverWithContext(ctx, r)`
for a recovered panic, or `hub.CaptureException(err)` for a returned error. -/
inductive ReportEvent where
  | recovered (v : GoPanic)
  | exception (e : Option GrpcError)
  deriving DecidableEq

/-- Observable result of one unary interceptor invocation: the context the
downstream handler was invoked with, the hub used for reporting, the reports
made through that hub, and the control outcome carrying `(resp, err)`. -/
structure UnaryResult (ρ H : Type) where
  handlerCtx : Context H
  hub : H
  reported : List ReportEvent
  outcome : Outcome (Option ρ × Option GrpcError)

/-- Lines 206–210 and 245–250: reuse the hub already on the context, else set
the clone of the process-wide current hub on it (`currentHubClone` names the
result of `sentry.CurrentHub().Clone()`). Returns the context handed to the
downstream handler and the hub used for reporting. -/
def ensureHub {H : Type} (ctx : Context H) (currentHubClone : H) :
    Context H × H :=
  match ctx.hub with
  | some h => (ctx, h)
  | none => (setHubOnContext ctx currentHubClone, currentHubClone)

/-- Body of the interceptor returned by `UnaryServerInterceptor`
(src lines 200–231). On a panic in the handler the deferred function recovers,
reports via `hub.RecoverWithContext`, re-raises when `opts.Repanic`, and
otherwise the named return `err` is set to
`status.Errorf(codes.Internal, "%s", r)` with the never-assigned named return
`resp` left nil; the post-call `opts.ReportOn(err)` check is skipped. On
normal completion the returned error is reported iff `opts.ReportOn(err)`. -/
def unaryInterceptorFunc {ρ H : Type} (opts : SentryOptions) (currentHubClone : H)
    (ctx : Context H) (handler : Context H → UnaryHandlerOutcome ρ) :
    UnaryResult ρ H :=
  let p := ensureHub ctx currentHubClone
  match handler p.1 with
  | .raised r =>
      if opts.Repanic then
        { handlerCtx := p.1, hub := p.2, reported := [.recovered r], outcome := .raised r }
      else
        { handlerCtx := p.1, hub := p.2, reported := [.recovered r],
          outcome := .ret (none, some (.statusErr codesInternal (stringifyGoPanic r))) }
  | .ok resp err =>
      let reported := if opts.ReportOn err then [ReportEvent.exception err] else []
      { handlerCtx := p.1, hub := p.2, reported := reported, outcome := .ret (resp, err) }

/-- `(wrapper *Sentry) UnaryServerInterceptor()` (src lines 197–232): builds
the interceptor with `opts := BuildOptions(WithRepanic(false))`. -/
def UnaryServerInterceptor {ρ H : Type} (reportOn : Option GrpcError → Bool)
    (currentHubClone : H) (ctx : Context H)
    (handler : Context H → UnaryHandlerOutcome ρ) : UnaryResult ρ H :=
  unaryInterceptorFunc (BuildOptions reportOn false) currentHubClone ctx handler

/-- What a stream grpc handler does when invoked: return a (possibly nil)
error, or panic. -/
inductive StreamHandlerOutcome where
  | ok (err : Option GrpcError)
  | raised (v : GoPanic)

/-- Observable result of one stream interceptor invocation: the
`WrappedContext` exposed to the handler through the wrapped stream, the hub
used for reporting, the reports made, and the control outcome carrying the
returned error. -/
structure StreamResult (H : Type) where
  wrappedCtx : Context H
  hub : H
  reported : List ReportEvent
  outcome : Outcome (Option GrpcError)

/-- Body of the interceptor returned by `StreamServerInterceptor`
(src lines 239–273). The stream's context is taken, a hub is ensured on it,
`wrapped := WrapServerStream(stream)` gets `wrapped.WrappedContext = ctx`, and
the handler runs on the wrapped stream. On a recovered panic with
`opts.Repanic` false the source executes `_ = status.Errorf(codes.Internal,
"%s", r)`: the built status error is discarded and the function's unnamed
return keeps its zero value, so the caller receives a nil error. On normal
completion the returned error is reported iff `opts.ReportOn(err)` and
returned unchanged. -/
def streamInterceptorFunc {H : Type} (opts : SentryOptions) (currentHubClone : H)
    (streamCtx : Context H) (handler : Context H → StreamHandlerOutcome) :
    StreamResult H :=
  let p := ensureHub streamCtx currentHubClone
  match handler p.1 with
  | .raised r =>
      if opts.Repanic then
        { wrappedCtx := p.1, hub := p.2, reported := [.recovered r], outcome := .raised r }
      else
        { wrappedCtx := p.1, hub := p.2, reported := [.recovered r], outcome := .ret none }
  | .ok err =>
      let reported := if opts.ReportOn err then [ReportEvent.exception err] else []
      { wrappedCtx := p.1, hub := p.2, reported := reported, outcome := .ret err }

/-- `(wrapper *Sentry) StreamServerInterceptor()` (src lines 236–273): builds
the interceptor with `opts := BuildOptions(WithRepanic(false))`. -/
def StreamServerInterceptor {H : Type} (reportOn : Option GrpcError → Bool)
    (currentHubClone : H) (streamCtx : Context H)
    (handler : Context H → StreamHandlerOutcome) : StreamResult H :=
  streamInterceptorFunc (BuildOptions reportOn false) currentHubClone streamCtx handler

/-- A concrete ignorable error for witnesses and counterexamples. -/
def sampleIgnorable : GoError :=
  { msg := "benign", ignorable := true, extras := none, tags := [] }

/-- A concrete reportable (non-ignorable) error for witnesses and
counterexamples. -/
def sampleError : GoError :=
  { msg := "boom", ignorable := false, extras := none, tags := [] }

/-- A wrapper whose client and handler were both initialized. -/
def enabledSentry : Sentry := { client := true, handler := true }

/-- The disabled wrapper `&Sentry{nil, nil}` produced when the DSN is empty or
rejected. -/
def disabledSentry : Sentry := { client := false, handler := false }

/-- The unary interceptor invokes its handler with the context produced by the
hub-ensuring step and reports through the hub that step selected, whatever the
handler then does. -/
theorem unaryInterceptorFunc_ctx_hub {ρ H : Type} (opts : SentryOptions)
    (currentHubClone : H) (ctx : Context H)
    (handler : Context H → UnaryHandlerOutcome ρ) :
    (unaryInterceptorFunc opts currentHubClone ctx handler).handlerCtx
      = (ensureHub ctx currentHubClone).1 ∧
    (unaryInterceptorFunc opts currentHubClone ctx handler).hub
      = (ensureHub ctx currentHubClone).2 := by
  cases h : handler (ensureHub ctx currentHubClone).1 with
  | ok resp err => simp [unaryInterceptorFunc, h]
  | raised r => by_cases hr : opts.Repanic <;> simp [unaryInterceptorFunc, h, hr]

/-- The stream interceptor exposes the context produced by the hub-ensuring
step through the wrapped stream and reports through the hub that step
selected, whatever the handler then does. -/
theorem streamInterceptorFunc_ctx_hub {H : Type} (opts : SentryOptions)
    (currentHubClone : H) (streamCtx : Context H)
    (handler : Context H → StreamHandlerOutcome) :
    (streamInterceptorFunc opts currentHubClone streamCtx handler).wrappedCtx
      = (ensureHub streamCtx currentHubClone).1 ∧
    (streamInterceptorFunc opts currentHubClone streamCtx handler).hub
      = (ensureHub streamCtx currentHubClone).2 := by
  cases h : handler (ensureHub streamCtx currentHubClone).1 with
  | ok err => simp [streamInterceptorFunc, h]
  | raised r => by_cases hr : opts.Repanic <;> simp [streamInterceptorFunc, h, hr]

/-- Claim C8: Capture called with a null error is a no-op for both panic-flag
values: it writes no log entry, transmits nothing, does not panic, and returns
the empty identifier. -/
theorem c8_capture_nil_error_noop (wrapper : Sentry) (capResult : Option EventID)
    (b : Bool) :
    Capture wrapper capResult none b
      = { outcome := .ret "", logs := [], sent := [] } := rfl

/-- Claim C7: Capture with a non-null error and the panic flag true always
re-raises the error after completing its reporting attempt, for every reporter
state, every backend response (transmitted or sampled out) and whether or not
the error is ignorable. -/
theorem c7_capture_true_always_reraises (wrapper : Sentry)
    (capResult : Option EventID) (e : GoError) :
    (Capture wrapper capResult (some e) true).outcome = .raised (.errv e) := by
  by_cases hc : (wrapper.client && !e.ignorable) = true <;> simp [Capture, hc]

/-- Claim C1 evaluation: with repanic disabled, as `StreamServerInterceptor`
fixes it, a panic in the stream handler is recovered and reported through the
session, but the interceptor returns a nil error to its caller: the Internal
status built from the panic is discarded by the source's blank assignment, so
the caller does not receive an internal-error result code. -/
theorem c1_stream_recovered_panic_returns_nil_error :
    (StreamServerInterceptor (H := Nat) (fun _ => false) 0
        { data := 0, hub := none } (fun _ => .raised (.strv "boom"))).reported
      = [.recovered (.strv "boom")] ∧
    (StreamServerInterceptor (H := Nat) (fun _ => false) 0
        { data := 0, hub := none } (fun _ => .raised (.strv "boom"))).outcome
      = .ret none ∧
    ¬ (StreamServerInterceptor (H := Nat) (fun _ => false) 0
        { data := 0, hub := none } (fun _ => .raised (.strv "boom"))).outcome
      = .ret (some (.statusErr codesInternal "boom")) := by
  refine ⟨rfl, rfl, ?_⟩
  decide

/-- Claim C3 evaluation, the fault the spec's open question flags: with the
reporter enabled, a non-ignorable error, a session attached to the context and
a transmission that is sampled out (`CaptureException` returns nil),
`CaptureWithContext` with the panic flag false reaches `return *eventID` with
a nil pointer: a nil-dereference fault, neither a value return nor the
deliberate re-raise of the caller's error. -/
theorem c3_capture_with_context_nil_deref :
    (CaptureWithContext (H := Nat) enabledSentry none
        { data := 0, hub := some 0 } (some sampleError) false).outcome
      = Outcome.nilDeref := rfl

/-- Claim C6: for every unary call whose handler panics, the interceptor
returned by `UnaryServerInterceptor` (repanic disabled) recovers the panic,
reports it through the session, and returns a nil response together with an
Internal-code status error whose message is the panic value's stringified
form. -/
theorem c6_unary_recovered_panic_internal_status {ρ H : Type}
    (reportOn : Option GrpcError → Bool) (currentHubClone : H)
    (ctx : Context H) (handler : Context H → UnaryHandlerOutcome ρ)
    (v : GoPanic) (hp : handler (ensureHub ctx currentHubClone).1 = .raised v) :
    (UnaryServerInterceptor reportOn currentHubClone ctx handler).outcome
      = .ret (none, some (.statusErr codesInternal (stringifyGoPanic v))) ∧
    (UnaryServerInterceptor reportOn currentHubClone ctx handler).reported
      = [.recovered v] := by
  simp [UnaryServerInterceptor, unaryInterceptorFunc, BuildOptions, hp]

/-- Claim C6 witness: the interceptor evaluated on a handler panicking with
the value "boom" returns the Internal status error with message "boom". -/
theorem c6_witness :
    (UnaryServerInterceptor (ρ := Nat) (H := Nat) (fun _ => false) 0
        { data := 0, hub := none } (fun _ => .raised (.strv "boom"))).outcome
      = .ret (none, some (.statusErr codesInternal "boom")) ∧
    (UnaryServerInterceptor (ρ := Nat) (H := Nat) (fun _ => false) 0
        { data := 0, hub := none } (fun _ => .raised (.strv "boom"))).reported
      = [.recovered (.strv "boom")] :=
  c6_unary_recovered_panic_internal_status (fun _ => false) 0
    { data := 0, hub := none } (fun _ => .raised (.strv "boom")) (.strv "boom") rfl

/-- Claim C10: both interceptor factories fix the repanic option to false when
building their options, so no recovered panic is ever propagated to the RPC
framework: the control outcome of either interceptor is never a raised panic,
for every handler behaviour, context and report predicate. -/
theorem c10_interceptors_never_repanic {ρ H : Type}
    (reportOn : Option GrpcError → Bool) (currentHubClone : H)
    (ctx streamCtx : Context H) (handler : Context H → UnaryHandlerOutcome ρ)
    (shandler : Context H → StreamHandlerOutcome) :
    (UnaryServerInterceptor reportOn currentHubClone ctx handler).outcome.propagates
      = false ∧
    (StreamServerInterceptor reportOn currentHubClone streamCtx shandler).outcome.propagates
      = false := by
  constructor
  · cases h : handler (ensureHub ctx currentHubClone).1 with
    | ok resp err =>
        simp [UnaryServerInterceptor, unaryInterceptorFunc, BuildOptions, h,
          Outcome.propagates]
    | raised r =>
        simp [UnaryServerInterceptor, unaryInterceptorFunc, BuildOptions, h,
          Outcome.propagates]
  · cases h : shandler (ensureHub streamCtx currentHubClone).1 with
    | ok err =>
        simp [StreamServerInterceptor, streamInterceptorFunc, BuildOptions, h,
          Outcome.propagates]
    | raised r =>
        simp [StreamServerInterceptor, streamInterceptorFunc, BuildOptions, h,
          Outcome.propagates]

/-- Claim C2 counterexample: on a context carrying no session, with the
reporter enabled, a non-ignorable error and a successful transmission,
`CaptureWithContext` discards the identifier produced by its `Capture`
fallback and returns the empty identifier, while `Capture` returns the
transmitted identifier: the two calls do not return the same identifier. -/
theorem c2_counterexample :
    ¬ (CaptureWithContext (H := Nat) enabledSentry (some "id-1")
        { data := 0, hub := none } (some sampleError) false).outcome
      = (Capture enabledSentry (some "id-1") (some sampleError) false).outcome := by
  decide

/-- Claim C2 (amended): for every context carrying no reporting session,
`CaptureWithContext` performs exactly the logging and transmission effects of
`Capture` and panics exactly when `Capture` panics, and returns the same
identifier except that, where `Capture` returns a transmitted identifier,
`CaptureWithContext` returns the empty identifier instead (it discards the
fallback's return value). -/
theorem c2_no_session_falls_back_to_capture {H : Type} (wrapper : Sentry)
    (capResult : Option EventID) (c : Context H) (err : Option GoError)
    (_panic : Bool) (hnone : c.hub = none) :
    (CaptureWithContext wrapper capResult c err _panic).logs
      = (Capture wrapper capResult err _panic).logs ∧
    (CaptureWithContext wrapper capResult c err _panic).sent
      = (Capture wrapper capResult err _panic).sent ∧
    ((CaptureWithContext wrapper capResult c err _panic).outcome
        = (Capture wrapper capResult err _panic).outcome ∨
      ((CaptureWithContext wrapper capResult c err _panic).outcome = .ret "" ∧
        ∃ id, (Capture wrapper capResult err _panic).outcome = .ret id)) := by
  cases err with
  | none => simp [CaptureWithContext, Capture, derefEventID]
  | some e =>
      by_cases hc : (wrapper.client && !e.ignorable) = true
      · cases _panic with
        | true => simp [CaptureWithContext, Capture, hc, hnone]
        | false =>
            cases capResult with
            | none => simp [CaptureWithContext, Capture, hc, hnone, derefEventID]
            | some id =>
                refine ⟨by simp [CaptureWithContext, Capture, hc, hnone],
                  by simp [CaptureWithContext, Capture, hc, hnone], Or.inr ?_⟩
                exact ⟨by simp [CaptureWithContext, Capture, hc, hnone, derefEventID],
                  id, by simp [Capture, hc]⟩
      · cases _panic <;> simp [CaptureWithContext, Capture, hc, derefEventID]

/-- Claim C2 witness: the amended statement evaluated at an enabled reporter,
a successful transmission, a hub-free context and a non-ignorable error. -/
theorem c2_witness :
    (CaptureWithContext (H := Nat) enabledSentry (some "id-1")
        { data := 0, hub := none } (some sampleError) false).logs
      = (Capture enabledSentry (some "id-1") (some sampleError) false).logs ∧
    (CaptureWithContext (H := Nat) enabledSentry (some "id-1")
        { data := 0, hub := none } (some sampleError) false).sent
      = (Capture enabledSentry (some "id-1") (some sampleError) false).sent ∧
    ((CaptureWithContext (H := Nat) enabledSentry (some "id-1")
        { data := 0, hub := none } (some sampleError) false).outcome
        = (Capture enabledSentry (some "id-1") (some sampleError) false).outcome ∨
      ((CaptureWithContext (H := Nat) enabledSentry (some "id-1")
        { data := 0, hub := none } (some sampleError) false).outcome = .ret "" ∧
        ∃ id, (Capture enabledSentry (some "id-1") (some sampleError) false).outcome
          = .ret id)) :=
  c2_no_session_falls_back_to_capture enabledSentry (some "id-1")
    { data := 0, hub := none } (some sampleError) false rfl

/-- Claim C4 counterexample: for an ignorable error with the panic flag true,
Capture re-raises the error instead of returning, so it does not return an
empty identifier for that panic-flag value. -/
theorem c4_counterexample :
    (Capture enabledSentry (some "id-1") (some sampleIgnorable) true).outcome
      = .raised (.errv sampleIgnorable) ∧
    ¬ (Capture enabledSentry (some "id-1") (some sampleIgnorable) true).outcome
      = .ret "" := by
  decide

/-- Claim C4 (amended): for every ignorable error, every reporter state, every
backend response and every context, Capture and CaptureWithContext never
invoke the transmission path and log the error locally, for both panic-flag
values; with the flag false they return the empty identifier, and with the
flag true they re-raise the error instead of returning. -/
theorem c4_ignorable_never_transmitted {H : Type} (wrapper : Sentry)
    (capResult : Option EventID) (c : Context H) (e : GoError) (b : Bool)
    (hig : e.ignorable = true) :
    (Capture wrapper capResult (some e) b).sent = [] ∧
    (Capture wrapper capResult (some e) b).logs = [.logError e] ∧
    (CaptureWithContext wrapper capResult c (some e) b).sent = [] ∧
    (CaptureWithContext wrapper capResult c (some e) b).logs = [.logError e] ∧
    (b = false → (Capture wrapper capResult (some e) b).outcome = .ret "" ∧
      (CaptureWithContext wrapper capResult c (some e) b).outcome = .ret "") ∧
    (b = true → (Capture wrapper capResult (some e) b).outcome = .raised (.errv e) ∧
      (CaptureWithContext wrapper capResult c (some e) b).outcome
        = .raised (.errv e)) := by
  cases b <;> simp [Capture, CaptureWithContext, hig, derefEventID]

/-- Claim C4 witness: the amended statement evaluated on the concrete
ignorable error with an enabled reporter, a session-carrying context and the
panic flag false. -/
theorem c4_witness :
    (Capture enabledSentry (some "id-1") (some sampleIgnorable) false).sent = [] ∧
    (Capture enabledSentry (some "id-1") (some sampleIgnorable) false).logs
      = [.logError sampleIgnorable] ∧
    (CaptureWithContext (H := Nat) enabledSentry (some "id-1")
        { data := 0, hub := some 0 } (some sampleIgnorable) false).sent = [] ∧
    (CaptureWithContext (H := Nat) enabledSentry (some "id-1")
        { data := 0, hub := some 0 } (some sampleIgnorable) false).logs
      = [.logError sampleIgnorable] ∧
    (false = false →
      (Capture enabledSentry (some "id-1") (some sampleIgnorable) false).outcome
        = .ret "" ∧
      (CaptureWithContext (H := Nat) enabledSentry (some "id-1")
        { data := 0, hub := some 0 } (some sampleIgnorable) false).outcome
        = .ret "") ∧
    (false = true →
      (Capture enabledSentry (some "id-1") (some sampleIgnorable) false).outcome
        = .raised (.errv sampleIgnorable) ∧
      (CaptureWithContext (H := Nat) enabledSentry (some "id-1")
        { data := 0, hub := some 0 } (some sampleIgnorable) false).outcome
        = .raised (.errv sampleIgnorable)) :=
  c4_ignorable_never_transmitted enabledSentry (some "id-1")
    { data := 0, hub := some 0 } sampleIgnorable false rfl

/-- Claim C5 counterexample: with the reporter disabled, a non-null error and
the panic flag true, Capture re-raises the error instead of returning, so it
does not return the empty identifier for every input error and panic flag. -/
theorem c5_counterexample :
    (Capture disabledSentry none (some sampleError) true).outcome
      = .raised (.errv sampleError) ∧
    ¬ (Capture disabledSentry none (some sampleError) true).outcome = .ret "" := by
  decide

/-- Claim C5 (amended): when the reporter is disabled (client handle and
handler adapter absent), Capture returns the empty identifier for the null
error under both flag values and for every error when the panic flag is
false; with the flag true and a non-null error it logs the error locally and
re-raises it instead of returning; and the decorators HandleFunc and
HandleHttpRouter return the given handler unchanged. -/
theorem c5_disabled_reporter {H K : Type} (wrapper : Sentry)
    (hcl : wrapper.client = false) (hh : wrapper.handler = false)
    (capResult : Option EventID) (e : GoError) (b : Bool)
    (sentryWrapF : H → H) (hf : H) (sentryWrapR : K → K) (hr : K) :
    (Capture wrapper capResult none b).outcome = .ret "" ∧
    (Capture wrapper capResult (some e) false).outcome = .ret "" ∧
    (Capture wrapper capResult (some e) true).outcome = .raised (.errv e) ∧
    (Capture wrapper capResult (some e) true).logs = [.logError e] ∧
    HandleFunc wrapper sentryWrapF hf = hf ∧
    HandleHttpRouter wrapper sentryWrapR hr = hr := by
  simp [Capture, HandleFunc, HandleHttpRouter, hcl, hh]

/-- Claim C5 witness: the amended statement evaluated on the disabled wrapper,
a concrete error and concrete handlers. -/
theorem c5_witness :
    (Capture disabledSentry none none true).outcome = .ret "" ∧
    (Capture disabledSentry none (some sampleError) false).outcome = .ret "" ∧
    (Capture disabledSentry none (some sampleError) true).outcome
      = .raised (.errv sampleError) ∧
    (Capture disabledSentry none (some sampleError) true).logs
      = [.logError sampleError] ∧
    HandleFunc disabledSentry (fun n : Nat => n + 1) 7 = 7 ∧
    HandleHttpRouter disabledSentry (fun n : Nat => n + 2) 9 = 9 :=
  c5_disabled_reporter disabledSentry rfl rfl none sampleError true
    (fun n : Nat => n + 1) 7 (fun n : Nat => n + 2) 9

/-- Claim C9: both interceptors ensure a reporting session on the context
handed downstream: a session already carried by the call's context is reused
with the context unchanged, otherwise the clone of the process-wide current
hub is attached to the context the downstream handler observes, and reporting
goes through that session. -/
theorem c9_interceptors_ensure_session {ρ H : Type}
    (reportOn : Option GrpcError → Bool) (currentHubClone : H)
    (ctx : Context H) (handler : Context H → UnaryHandlerOutcome ρ)
    (shandler : Context H → StreamHandlerOutcome) :
    (∀ h0, ctx.hub = some h0 →
      (UnaryServerInterceptor reportOn currentHubClone ctx handler).handlerCtx = ctx ∧
      (UnaryServerInterceptor reportOn currentHubClone ctx handler).hub = h0 ∧
      (StreamServerInterceptor reportOn currentHubClone ctx shandler).wrappedCtx = ctx ∧
      (StreamServerInterceptor reportOn currentHubClone ctx shandler).hub = h0) ∧
    (ctx.hub = none →
      (UnaryServerInterceptor reportOn currentHubClone ctx handler).handlerCtx
        = setHubOnContext ctx currentHubClone ∧
      (UnaryServerInterceptor reportOn currentHubClone ctx handler).hub
        = currentHubClone ∧
      (StreamServerInterceptor reportOn currentHubClone ctx shandler).wrappedCtx
        = setHubOnContext ctx currentHubClone ∧
      (StreamServerInterceptor reportOn currentHubClone ctx shandler).hub
        = currentHubClone) := by
  have hu := unaryInterceptorFunc_ctx_hub (BuildOptions reportOn false)
    currentHubClone ctx handler
  have hs := streamInterceptorFunc_ctx_hub (BuildOptions reportOn false)
    currentHubClone ctx shandler
  constructor
  · intro h0 hh
    refine ⟨?_, ?_, ?_, ?_⟩ <;>
      simp [UnaryServerInterceptor, StreamServerInterceptor, hu.1, hu.2, hs.1, hs.2,
        ensureHub, hh]
  · intro hh
    refine ⟨?_, ?_, ?_, ?_⟩ <;>
      simp [UnaryServerInterceptor, StreamServerInterceptor, hu.1, hu.2, hs.1, hs.2,
        ensureHub, hh]

/-- Claim C9 witness: the session-attachment behaviour evaluated on one
context already carrying a session (hub 5; it is reused and the context is
unchanged) and one without (the clone 7 of the current hub is attached). -/
theorem c9_witness :
    ((UnaryServerInterceptor (ρ := Nat) (H := Nat) (fun _ => false) 7
        { data := 3, hub := some 5 } (fun _ => .ok none none)).handlerCtx
      = { data := 3, hub := some 5 } ∧
     (UnaryServerInterceptor (ρ := Nat) (H := Nat) (fun _ => false) 7
        { data := 3, hub := some 5 } (fun _ => .ok none none)).hub = 5 ∧
     (StreamServerInterceptor (H := Nat) (fun _ => false) 7
        { data := 3, hub := some 5 } (fun _ => .ok none)).wrappedCtx
      = { data := 3, hub := some 5 } ∧
     (StreamServerInterceptor (H := Nat) (fun _ => false) 7
        { data := 3, hub := some 5 } (fun _ => .ok none)).hub = 5) ∧
    ((UnaryServerInterceptor (ρ := Nat) (H := Nat) (fun _ => false) 7
        { data := 3, hub := none } (fun _ => .ok none none)).handlerCtx
      = setHubOnContext { data := 3, hub := none } 7 ∧
     (UnaryServerInterceptor (ρ := Nat) (H := Nat) (fun _ => false) 7
        { data := 3, hub := none } (fun _ => .ok none none)).hub = 7 ∧
     (StreamServerInterceptor (H := Nat) (fun _ => false) 7
        { data := 3, hub := none } (fun _ => .ok none)).wrappedCtx
      = setHubOnContext { data := 3, hub := none } 7 ∧
     (StreamServerInterceptor (H := Nat) (fun _ => false) 7
        { data := 3, hub := none } (fun _ => .ok none)).hub = 7) :=
  ⟨(c9_interceptors_ensure_session (fun _ => false) 7 { data := 3, hub := some 5 }
      (fun _ => .ok none none) (fun _ => .ok none)).1 5 rfl,
   (c9_interceptors_ensure_session (fun _ => false) 7 { data := 3, hub := none }
      (fun _ => .ok none none) (fun _ => .ok none)).2 rfl⟩

end Vcore.Surveillance
